import Mathlib

set_option maxHeartbeats 1000000

/-!
Shallow embedding of the SmokeTrack point-of-sale and credit-ledger
application (src/app.py). Monetary amounts are rationals, timestamps are
integers counted in days, and the Firestore collections become explicit
fields of a `State` record: `debtors` is a map from name to record,
`customers` is the streamed list of (phone, record) documents, and
`sales`, `payments`, `point_history` are append-only lists.
-/

/-- Payment method of a sale. The source compares the request string against
the literal credit; everything else behaves as cash. -/
inductive Method where
  | cash
  | credit
deriving DecidableEq

/-- Item kind of a sale: the source compares against the literal loose and
treats everything else as a pack. -/
inductive Item where
  | loose
  | pack
deriving DecidableEq

/-- Debtor document (collection debtors, keyed by customer name),
as written by process_sale and record_payment. -/
structure Debtor where
  balance : ℚ
  trust_score : ℤ
  created : ℤ
  last_purchase : ℤ
  last_payment : Option ℤ
deriving DecidableEq

/-- Customer document (collection customers, keyed by phone), restricted to
the fields that the embedded operations read or write. -/
structure Customer where
  name : String
  approved : Bool
  credit_enabled : Bool
  credit_limit : ℚ
  loyalty_points : ℤ
  tier : String
  current_debt : ℚ
  last_debt_check : Option ℤ
  debt_at_last_check : ℚ
deriving DecidableEq

/-- Sale document as created by process_sale (lines 535-542): the qty field
stores the stick count. -/
structure SaleRec where
  qty : ℤ
  price : ℚ
  method : Method
  customer : String
  timestamp : ℤ
  item_type : Item
deriving DecidableEq

/-- Payment log entry as created by record_payment (lines 614-620). -/
structure PaymentRec where
  customer : String
  amount : ℚ
  timestamp : ℤ
  previous_balance : ℚ
  new_balance : ℚ
deriving DecidableEq

/-- Reason tag of a point-history entry; the source stores formatted strings,
embedded here as a tagged value carrying the same data. -/
inductive Reason where
  | purchase (sticks : ℤ)
  | paymentBonus (amount : ℚ)
  | overdueFourWeeks
  | debtIncrease (pct : ℚ)
deriving DecidableEq

/-- Point-history log entry. -/
structure PointEntry where
  customer_phone : String
  change : ℤ
  reason : Reason
  timestamp : ℤ
deriving DecidableEq

/-- The persistent store: one field per Firestore collection touched by the
embedded operations, plus a counter standing in for generated document ids. -/
structure State where
  sales : List (Nat × SaleRec)
  debtors : String → Option Debtor
  customers : List (String × Customer)
  payments : List PaymentRec
  point_history : List PointEntry
  nextSaleId : Nat

/-- Business constant BUNDLE_COST = 145.00 (line 26). -/
def BUNDLE_COST : ℚ := 145

/-- Business constant STICKS_PER_BUNDLE = 200 (line 27). -/
def STICKS_PER_BUNDLE : ℤ := 200

/-- COST_PER_STICK = BUNDLE_COST / STICKS_PER_BUNDLE (line 28). -/
def COST_PER_STICK : ℚ := BUNDLE_COST / (STICKS_PER_BUNDLE : ℚ)

/-- Credit tier record (lines 31-33). -/
structure Tier where
  name : String
  limit : ℚ
  min_points : ℤ
deriving DecidableEq

def TIER_NEW : Tier := { name := "new", limit := 80, min_points := 0 }

def TIER_REGULAR : Tier := { name := "regular", limit := 100, min_points := 50 }

def TIER_TRUSTED : Tier := { name := "trusted", limit := 120, min_points := 100 }

/-- calculate_tier (lines 42-45). -/
def calculate_tier (points : ℤ) : Tier :=
  if points ≥ 100 then TIER_TRUSTED
  else if points ≥ 50 then TIER_REGULAR
  else TIER_NEW

/-- update_customer_tier (lines 47-53): the update payload applied to the
customer document referenced in the source. -/
def update_customer_tier (c : Customer) (points : ℤ) : Customer :=
  let tier_info := calculate_tier points
  { c with loyalty_points := points, tier := tier_info.name, credit_limit := tier_info.limit }

/-- Document lookup customers/phone, as done by
db.collection(customers).document(phone): first list entry with that key. -/
def getCustomer (cs : List (String × Customer)) (phone : String) : Option Customer :=
  (cs.find? (fun e => decide (e.1 = phone))).map (fun e => e.2)

/-- Query where name == n limit 1: the first streamed customer whose name
field matches. -/
def queryByName (cs : List (String × Customer)) (customer_name : String) : Option (String × Customer) :=
  cs.find? (fun e => decide (e.2.name = customer_name))

/-- Firestore update on document customers/phone: rewrite the entries with
that key through f. -/
def updateCustomer (cs : List (String × Customer)) (phone : String) (f : Customer → Customer) : List (String × Customer) :=
  cs.map (fun e => if e.1 = phone then (e.1, f e.2) else e)

/-- Number of point-history entries logged for a given phone. -/
def countFor (phone : String) (entries : List PointEntry) : ℕ :=
  (entries.filter (fun e => decide (e.customer_phone = phone))).length

/-- Pricing rule of process_sale (lines 525-531): unit 1.50 per loose stick;
pack unit 40.00 when the method is credit, else 30.00. -/
def sale_price (item : Item) (method : Method) (qty : ℤ) : ℚ :=
  match item with
  | Item.loose => (1.5 : ℚ) * (qty : ℚ)
  | Item.pack => (if method = Method.credit then (40 : ℚ) else (30 : ℚ)) * (qty : ℚ)

/-- Stick count of process_sale (lines 525-531): qty for loose, qty * 20 for
a pack. -/
def sale_sticks (item : Item) (qty : ℤ) : ℤ :=
  match item with
  | Item.loose => qty
  | Item.pack => qty * 20

/-- Debtor update of a credit sale (lines 545-558): increment the balance of
an existing debtor, else create the record with trust_score 50. -/
def upsert_debtor (debtors : String → Option Debtor) (customer_name : String) (price : ℚ) (now : ℤ) : String → Option Debtor :=
  fun n =>
    if n = customer_name then
      match debtors customer_name with
      | some d => some { d with balance := d.balance + price, last_purchase := now }
      | none => some { balance := price, trust_score := 50, created := now, last_purchase := now, last_payment := none }
    else debtors n

/-- Customer side of a credit sale (lines 561-582): for the first customer
matching the name, add the price to current_debt, add sticks // 20 loyalty
points, log the point change when sticks >= 20, and re-run the tier update. -/
def credit_sale_customers (s : State) (customer_name : String) (price : ℚ) (sticks : ℤ) (now : ℤ) : State :=
  match queryByName s.customers customer_name with
  | none => s
  | some pc =>
    let phone := pc.1
    let cust_data := pc.2
    let new_debt := cust_data.current_debt + price
    let new_points := cust_data.loyalty_points + Int.fdiv sticks 20
    let s1 : State := { s with customers := (updateCustomer s.customers phone
      (fun c0 => { c0 with current_debt := new_debt, loyalty_points := new_points })) }
    let s2 : State :=
      if 20 ≤ sticks then
        { s1 with point_history := s1.point_history ++
          [{ customer_phone := phone, change := Int.fdiv sticks 20, reason := Reason.purchase sticks, timestamp := now }] }
      else s1
    { s2 with customers := updateCustomer s2.customers phone (fun c0 => update_customer_tier c0 new_points) }

/-- Response of process_sale (lines 585-589). -/
structure SaleResp where
  profit_made : ℚ
  price : ℚ
deriving DecidableEq

/-- process_sale (lines 517-589): price the sale, append the sale document,
and on credit update the debtor and the matching customer. -/
def process_sale (s : State) (item : Item) (method : Method) (qty : ℤ) (customer_name : String) (now : ℤ) : State × SaleResp :=
  let price := sale_price item method qty
  let sticks := sale_sticks item qty
  let s1 : State := { s with
    sales := s.sales ++ [(s.nextSaleId,
      { qty := sticks, price := price, method := method, customer := customer_name, timestamp := now, item_type := item })],
    nextSaleId := s.nextSaleId + 1 }
  let s2 : State :=
    if method = Method.credit then
      credit_sale_customers { s1 with debtors := upsert_debtor s1.debtors customer_name price now }
        customer_name price sticks now
    else s1
  (s2, { profit_made := price - (sticks : ℚ) * COST_PER_STICK, price := price })

/-- Response of record_payment: 404 when the debtor is missing, otherwise the
new balance and the paid_in_full flag (lines 600-650). -/
inductive PayResp where
  | notFound
  | success (new_balance : ℚ) (paid_in_full : Bool)
deriving DecidableEq

/-- Customer side of a payment (lines 622-644): for the first customer
matching the name, floor current_debt at 0, add the flat 5 bonus points,
reset last_debt_check and debt_at_last_check, log the bonus, and re-run the
tier update. -/
def payment_customer_update (s : State) (customer_name : String) (amount : ℚ) (now : ℤ) : State :=
  match queryByName s.customers customer_name with
  | none => s
  | some pc =>
    let phone := pc.1
    let cust_data := pc.2
    let new_debt := max 0 (cust_data.current_debt - amount)
    let new_points := cust_data.loyalty_points + 5
    let s1 : State := { s with customers := (updateCustomer s.customers phone
      (fun c0 => { c0 with current_debt := new_debt, loyalty_points := new_points,
                           last_debt_check := some now, debt_at_last_check := new_debt })) }
    let s2 : State := { s1 with point_history := s1.point_history ++
      [{ customer_phone := phone, change := 5, reason := Reason.paymentBonus amount, timestamp := now }] }
    { s2 with customers := updateCustomer s2.customers phone (fun c0 => update_customer_tier c0 new_points) }

/-- record_payment (lines 591-650): 404 when the debtor is missing; otherwise
floor the balance at 0, delete the debtor when the new balance is exactly 0,
append the payment log entry, and update the matching customer. -/
def record_payment (s : State) (customer_name : String) (amount : ℚ) (now : ℤ) : State × PayResp :=
  match s.debtors customer_name with
  | none => (s, PayResp.notFound)
  | some d =>
    let current_balance := d.balance
    let new_balance := max 0 (current_balance - amount)
    let s1 : State :=
      if new_balance = 0 then
        { s with debtors := fun n => if n = customer_name then none else s.debtors n }
      else
        { s with debtors := (fun n => if n = customer_name then
            some { d with balance := new_balance, last_payment := some now } else s.debtors n) }
    let s2 : State := { s1 with payments := s1.payments ++
      [{ customer := customer_name, amount := amount, timestamp := now,
         previous_balance := current_balance, new_balance := new_balance }] }
    (payment_customer_update s2 customer_name amount now, PayResp.success new_balance (decide (new_balance = 0)))

/-- Four-week overdue branch of check_overdue_penalties (lines 69-87),
reading the streamed snapshot data of one customer. -/
def four_week_check (now : ℤ) (s : State) (phone : String) (data : Customer) : State :=
  match data.last_debt_check with
  | none => s
  | some last_check =>
    if ((now - last_check : ℤ) : ℚ) / 7 ≥ 4 then
      let new_points := max 0 (data.loyalty_points - 2)
      let s1 : State := { s with customers := (updateCustomer s.customers phone
        (fun c0 => update_customer_tier c0 new_points)) }
      let s2 : State := { s1 with point_history := s1.point_history ++
        [{ customer_phone := phone, change := -2, reason := Reason.overdueFourWeeks, timestamp := now }] }
      { s2 with customers := (updateCustomer s2.customers phone
        (fun c0 => { c0 with last_debt_check := some now })) }
    else s

/-- Ten-percent debt-increase branch of check_overdue_penalties (lines
89-105), reading the same streamed snapshot data. -/
def ten_pct_check (now : ℤ) (s : State) (phone : String) (data : Customer) : State :=
  if data.debt_at_last_check > 0 then
    let increase_pct := ((data.current_debt - data.debt_at_last_check) / data.debt_at_last_check) * 100
    if increase_pct ≥ 10 then
      let new_points := max 0 (data.loyalty_points - 2)
      let s1 : State := { s with customers := (updateCustomer s.customers phone
        (fun c0 => update_customer_tier c0 new_points)) }
      let s2 : State := { s1 with point_history := s1.point_history ++
        [{ customer_phone := phone, change := -2, reason := Reason.debtIncrease increase_pct, timestamp := now }] }
      { s2 with customers := (updateCustomer s2.customers phone
        (fun c0 => { c0 with debt_at_last_check := data.current_debt })) }
    else s
  else s

/-- One loop iteration of check_overdue_penalties (lines 60-105): skip
customers without debt, then run both checks on the streamed snapshot. -/
def penalty_step (now : ℤ) (s : State) (pc : String × Customer) : State :=
  if pc.2.current_debt = 0 then s
  else ten_pct_check now (four_week_check now s pc.1 pc.2) pc.1 pc.2

/-- check_overdue_penalties (lines 55-105): fold the per-customer step over
the streamed snapshot of approved customers. -/
def check_overdue_penalties (s : State) (now : ℤ) : State :=
  (s.customers.filter (fun pc => pc.2.approved)).foldl (penalty_step now) s

/-- Response of delete_transaction. -/
inductive DelResp where
  | notFound
  | success
deriving DecidableEq

/-- delete_transaction (lines 1142-1165): 404 when the sale is missing; for a
credit sale subtract its price from the debtor balance floored at 0, deleting
the debtor at exactly 0; then delete the sale document. -/
def delete_transaction (s : State) (transaction_id : Nat) : State × DelResp :=
  match s.sales.find? (fun e => decide (e.1 = transaction_id)) with
  | none => (s, DelResp.notFound)
  | some idrec =>
    let trans_data := idrec.2
    let s1 : State :=
      if trans_data.method = Method.credit then
        match s.debtors trans_data.customer with
        | some d =>
          let new_balance := max 0 (d.balance - trans_data.price)
          if new_balance = 0 then
            { s with debtors := fun n => if n = trans_data.customer then none else s.debtors n }
          else
            { s with debtors := (fun n => if n = trans_data.customer then
                some { d with balance := new_balance } else s.debtors n) }
        | none => s
      else s
    ({ s1 with sales := s1.sales.filter (fun e => decide (e.1 ≠ transaction_id)) }, DelResp.success)

/-- Dashboard cash total (lines 384-394): sum of prices of sales whose
method is cash. -/
def cash_total (sales : List SaleRec) : ℚ :=
  ((sales.filter (fun r => decide (r.method = Method.cash))).map (fun r => r.price)).sum

/-- Dashboard credit total (lines 384-394): sum of prices of the other
sales. -/
def credit_total (sales : List SaleRec) : ℚ :=
  ((sales.filter (fun r => decide (r.method ≠ Method.cash))).map (fun r => r.price)).sum

/-- Dashboard total_sticks_sold (line 395): sum of the qty fields over all
sales, all time. -/
def total_sticks_sold (sales : List SaleRec) : ℤ :=
  (sales.map (fun r => r.qty)).sum

/-- Dashboard daily_sales (lines 403-404): sum of prices of sales dated
today. -/
def daily_sales_total (sales : List SaleRec) (today : ℤ) : ℚ :=
  ((sales.filter (fun r => decide (r.timestamp = today))).map (fun r => r.price)).sum

/-- Credit-risk classification of the dashboard (lines 427-431). -/
def risk_level (cashAmount creditAmount : ℚ) : String :=
  if cashAmount > 0 then
    if creditAmount / cashAmount > (0.6 : ℚ) then "HIGH"
    else if creditAmount / cashAmount > (0.3 : ℚ) then "MEDIUM"
    else "SAFE"
  else if creditAmount > 0 then "HIGH" else "SAFE"

/-- Python int() conversion on a rational: truncation toward zero. -/
def pyInt (q : ℚ) : ℤ :=
  if 0 ≤ q then ⌊q⌋ else ⌈q⌉

/-- Forecast output of the dashboard (lines 459-466). -/
structure Forecast where
  days_until_out : ℤ
  bundles_needed : ℤ
deriving DecidableEq

/-- avg_sticks_per_day of the dashboard (line 461): the ALL-TIME stick total
divided by the days elapsed since month start, floored at one day. -/
def avg_sticks_per_day (sales : List SaleRec) (today month_start : ℤ) : ℚ :=
  (total_sticks_sold sales : ℚ) / ((max 1 (today - month_start) : ℤ) : ℚ)

/-- Cash-flow forecast of the dashboard (lines 459-466). -/
def cash_flow_forecast (sales : List SaleRec) (stock_sticks today month_start : ℤ) : Forecast :=
  let sticks_remaining := stock_sticks - total_sticks_sold sales
  if 0 < daily_sales_total sales today ∧ 0 < sticks_remaining then
    let avg := avg_sticks_per_day sales today month_start
    { days_until_out := pyInt ((sticks_remaining : ℚ) / max 1 avg),
      bundles_needed := max 1 (pyInt ((avg * 7) / (STICKS_PER_BUNDLE : ℚ))) }
  else
    { days_until_out := 0, bundles_needed := 1 }

/-- Reading of the spec words for the forecast average: the average daily
stick consumption computed SINCE MONTH START, that is, sticks sold since
month start divided by the days elapsed since month start (floored at one
day). Stated from the words of the spec for comparison with the source
computation, whose numerator is the all-time stick total. -/
def spec_avg_sticks_per_day (sales : List SaleRec) (today month_start : ℤ) : ℚ :=
  ((((sales.filter (fun r => decide (month_start ≤ r.timestamp))).map (fun r => r.qty)).sum : ℤ) : ℚ) /
    ((max 1 (today - month_start) : ℤ) : ℚ)

/-- Days-until-stockout under the spec reading of the average, with the same
guard and truncation as the source. -/
def spec_days_until_out (sales : List SaleRec) (stock_sticks today month_start : ℤ) : ℤ :=
  pyInt (((stock_sticks - total_sticks_sold sales : ℤ) : ℚ) / max 1 (spec_avg_sticks_per_day sales today month_start))

/-- Operations applied to a single debtor name: a credit sale or a payment. -/
inductive Op where
  | sale (item : Item) (qty : ℤ)
  | pay (amount : ℚ)
deriving DecidableEq

/-- Apply one operation for the given customer name. -/
def applyOp (customer_name : String) (now : ℤ) (s : State) : Op → State
  | Op.sale item qty => (process_sale s item Method.credit qty customer_name now).1
  | Op.pay amount => (record_payment s customer_name amount now).1

/-- Apply a sequence of credit sales and payments for one customer name. -/
def applyOps (customer_name : String) (now : ℤ) (s : State) (ops : List Op) : State :=
  ops.foldl (applyOp customer_name now) s

/-- The debtor invariant of the spec at one name: whenever the record is
present its balance is strictly positive (equivalently, the record is absent
exactly when the balance would be 0). -/
def DebtorPos (s : State) (customer_name : String) : Prop :=
  ∀ d, s.debtors customer_name = some d → 0 < d.balance

/-- A store with no documents at all. -/
def emptyState : State :=
  { sales := [], debtors := fun _ => none, customers := [], payments := [], point_history := [], nextSaleId := 0 }

/-- Fixture customer used by concrete witnesses. -/
def aliceCustomer : Customer :=
  { name := "Alice", approved := true, credit_enabled := true, credit_limit := 80,
    loyalty_points := 3, tier := "new", current_debt := 10,
    last_debt_check := some 0, debt_at_last_check := 10 }

/-- Fixture debtor used by concrete witnesses. -/
def aliceDebtor : Debtor :=
  { balance := 40, trust_score := 50, created := 0, last_purchase := 0, last_payment := none }

/-- Fixture store holding one customer and one debtor. -/
def baseState : State :=
  { sales := [], debtors := fun n => if n = "Alice" then some aliceDebtor else none,
    customers := [("071", aliceCustomer)], payments := [], point_history := [], nextSaleId := 0 }

/-- Fixture customer for the overdue-penalty sweep: nonzero debt, a stale
last_debt_check, and a debt increase above ten percent of the baseline. -/
def bobCustomer : Customer :=
  { name := "Bob", approved := true, credit_enabled := true, credit_limit := 80,
    loyalty_points := 10, tier := "new", current_debt := 50,
    last_debt_check := some 0, debt_at_last_check := 20 }

/-- Fixture store for the overdue-penalty sweep. -/
def sweepState : State :=
  { sales := [], debtors := fun _ => none, customers := [("072", bobCustomer)],
    payments := [], point_history := [], nextSaleId := 0 }

/-- Fixture sale before month start, for the forecast comparison. -/
def saleOld : SaleRec :=
  { qty := 198, price := 10, method := Method.cash, customer := "Cash Customer", timestamp := 0, item_type := Item.pack }

/-- Fixture sale dated today, for the forecast comparison. -/
def saleToday : SaleRec :=
  { qty := 2, price := 3, method := Method.cash, customer := "Cash Customer", timestamp := 12, item_type := Item.pack }

/-- Fixture sales list for the forecast comparison: month start is day 10,
today is day 12. -/
def forecastSales : List SaleRec := [saleOld, saleToday]

/-- Fixture store holding one recorded credit sale, for the deletion claim. -/
def saleState : State :=
  { baseState with
    sales := [(0, { qty := 20, price := 40, method := Method.credit, customer := "Alice", timestamp := 0, item_type := Item.pack })],
    nextSaleId := 1 }


/-- Updating the customer document at a phone rewrites exactly the looked-up
record. -/
theorem getCustomer_update_self (cs : List (String × Customer)) (phone : String) (f : Customer → Customer) :
    getCustomer (updateCustomer cs phone f) phone = (getCustomer cs phone).map f := by
  induction cs with
  | nil => rfl
  | cons e cs ih =>
    show getCustomer ((if e.1 = phone then (e.1, f e.2) else e) :: updateCustomer cs phone f) phone
      = ((getCustomer (e :: cs) phone).map f)
    by_cases h : e.1 = phone
    · rw [if_pos h]
      unfold getCustomer
      rw [List.find?_cons_of_pos _ (by simpa using h), List.find?_cons_of_pos _ (by simpa using h)]
      simp
    · rw [if_neg h]
      unfold getCustomer
      rw [List.find?_cons_of_neg _ (by simpa using h), List.find?_cons_of_neg _ (by simpa using h)]
      exact ih

/-- Updating the customer document at one phone leaves every other lookup
unchanged. -/
theorem getCustomer_update_ne (cs : List (String × Customer)) (phone q : String) (f : Customer → Customer)
    (hne : phone ≠ q) :
    getCustomer (updateCustomer cs q f) phone = getCustomer cs phone := by
  induction cs with
  | nil => rfl
  | cons e cs ih =>
    show getCustomer ((if e.1 = q then (e.1, f e.2) else e) :: updateCustomer cs q f) phone
      = getCustomer (e :: cs) phone
    by_cases hq : e.1 = q
    · rw [if_pos hq]
      have hep : e.1 ≠ phone := by rw [hq]; exact fun hx => hne hx.symm
      unfold getCustomer
      rw [List.find?_cons_of_neg _ (by simpa using hep), List.find?_cons_of_neg _ (by simpa using hep)]
      exact ih
    · rw [if_neg hq]
      by_cases hp : e.1 = phone
      · unfold getCustomer
        rw [List.find?_cons_of_pos _ (by simpa using hp), List.find?_cons_of_pos _ (by simpa using hp)]
      · unfold getCustomer
        rw [List.find?_cons_of_neg _ (by simpa using hp), List.find?_cons_of_neg _ (by simpa using hp)]
        exact ih

/-- Point-history counts add over appended logs. -/
theorem countFor_append (phone : String) (l1 l2 : List PointEntry) :
    countFor phone (l1 ++ l2) = countFor phone l1 + countFor phone l2 := by
  simp [countFor, List.filter_append]

/-- A log entry for another phone does not change a count. -/
theorem countFor_single_ne (phone q : String) (ch : ℤ) (r : Reason) (t : ℤ) (h : q ≠ phone) :
    countFor phone [{ customer_phone := q, change := ch, reason := r, timestamp := t }] = 0 := by
  simp [countFor, h]

/-- A log entry for a phone adds one to its count. -/
theorem countFor_single_self (phone : String) (ch : ℤ) (r : Reason) (t : ℤ) :
    countFor phone [{ customer_phone := phone, change := ch, reason := r, timestamp := t }] = 1 := by
  simp [countFor]

/-- The customer side of a credit sale does not touch the debtors map. -/
theorem credit_sale_customers_debtors (s : State) (n : String) (price : ℚ) (sticks now : ℤ) :
    (credit_sale_customers s n price sticks now).debtors = s.debtors := by
  unfold credit_sale_customers
  cases queryByName s.customers n with
  | none => rfl
  | some pc =>
    dsimp
    split <;> rfl

/-- The customer side of a credit sale does not touch the sales list. -/
theorem credit_sale_customers_sales (s : State) (n : String) (price : ℚ) (sticks now : ℤ) :
    (credit_sale_customers s n price sticks now).sales = s.sales := by
  unfold credit_sale_customers
  cases queryByName s.customers n with
  | none => rfl
  | some pc =>
    dsimp
    split <;> rfl

/-- Effect of the credit-sale customer block on the matched customer. -/
theorem credit_sale_customers_effect (s : State) (n : String) (price : ℚ) (sticks now : ℤ)
    (phone : String) (c : Customer)
    (hq : queryByName s.customers n = some (phone, c))
    (hg : getCustomer s.customers phone = some c) :
    getCustomer (credit_sale_customers s n price sticks now).customers phone =
      some (update_customer_tier
        { c with current_debt := c.current_debt + price,
                 loyalty_points := c.loyalty_points + Int.fdiv sticks 20 }
        (c.loyalty_points + Int.fdiv sticks 20)) := by
  unfold credit_sale_customers
  rw [hq]
  dsimp
  split
  · rw [getCustomer_update_self]
    dsimp
    rw [getCustomer_update_self, hg]
    rfl
  · rw [getCustomer_update_self]
    dsimp
    rw [getCustomer_update_self, hg]
    rfl

/-- The customer side of a payment does not touch the debtors map. -/
theorem payment_customer_update_debtors (s : State) (n : String) (amount : ℚ) (now : ℤ) :
    (payment_customer_update s n amount now).debtors = s.debtors := by
  unfold payment_customer_update
  cases queryByName s.customers n with
  | none => rfl
  | some pc => rfl

/-- Effect of the payment customer block on the matched customer. -/
theorem payment_customer_update_effect (s : State) (n : String) (amount : ℚ) (now : ℤ)
    (phone : String) (c : Customer)
    (hq : queryByName s.customers n = some (phone, c))
    (hg : getCustomer s.customers phone = some c) :
    getCustomer (payment_customer_update s n amount now).customers phone =
      some (update_customer_tier
        { c with current_debt := max 0 (c.current_debt - amount),
                 loyalty_points := c.loyalty_points + 5,
                 last_debt_check := some now,
                 debt_at_last_check := max 0 (c.current_debt - amount) }
        (c.loyalty_points + 5)) := by
  unfold payment_customer_update
  rw [hq]
  dsimp
  rw [getCustomer_update_self, getCustomer_update_self, hg]
  rfl

/-- record_payment on a missing debtor returns the 404 result and the store
unchanged. -/
theorem record_payment_none (s : State) (n : String) (amount : ℚ) (now : ℤ)
    (hd : s.debtors n = none) :
    record_payment s n amount now = (s, PayResp.notFound) := by
  unfold record_payment
  rw [hd]

/-- Effect of record_payment on the paying debtor record. -/
theorem record_payment_debtors_self (s : State) (n : String) (amount : ℚ) (now : ℤ) (d : Debtor)
    (hd : s.debtors n = some d) :
    (record_payment s n amount now).1.debtors n =
      (if max 0 (d.balance - amount) = 0 then none
       else some { d with balance := max 0 (d.balance - amount), last_payment := some now }) := by
  unfold record_payment
  rw [hd]
  dsimp
  rw [payment_customer_update_debtors]
  split
  · dsimp
    rw [if_pos rfl]
  · dsimp
    rw [if_pos rfl]

/-- Effect of record_payment on the matched customer. -/
theorem record_payment_customers_effect (s : State) (n : String) (amount : ℚ) (now : ℤ)
    (d : Debtor) (phone : String) (c : Customer)
    (hd : s.debtors n = some d)
    (hq : queryByName s.customers n = some (phone, c))
    (hg : getCustomer s.customers phone = some c) :
    getCustomer (record_payment s n amount now).1.customers phone =
      some (update_customer_tier
        { c with current_debt := max 0 (c.current_debt - amount),
                 loyalty_points := c.loyalty_points + 5,
                 last_debt_check := some now,
                 debt_at_last_check := max 0 (c.current_debt - amount) }
        (c.loyalty_points + 5)) := by
  unfold record_payment
  rw [hd]
  dsimp
  split
  · exact payment_customer_update_effect _ n amount now phone c hq hg
  · exact payment_customer_update_effect _ n amount now phone c hq hg

/-- The debtors map after a credit sale is the upsert of the sale price. -/
theorem process_sale_debtors_credit (s : State) (item : Item) (qty : ℤ) (n : String) (now : ℤ) :
    (process_sale s item Method.credit qty n now).1.debtors =
      upsert_debtor s.debtors n (sale_price item Method.credit qty) now := by
  unfold process_sale
  dsimp
  rw [credit_sale_customers_debtors]

/-- Effect of a credit sale on the matched customer. -/
theorem process_sale_customers_effect (s : State) (item : Item) (qty : ℤ) (n : String) (now : ℤ)
    (phone : String) (c : Customer)
    (hq : queryByName s.customers n = some (phone, c))
    (hg : getCustomer s.customers phone = some c) :
    getCustomer (process_sale s item Method.credit qty n now).1.customers phone =
      some (update_customer_tier
        { c with current_debt := c.current_debt + sale_price item Method.credit qty,
                 loyalty_points := c.loyalty_points + Int.fdiv (sale_sticks item qty) 20 }
        (c.loyalty_points + Int.fdiv (sale_sticks item qty) 20)) := by
  unfold process_sale
  dsimp
  exact credit_sale_customers_effect _ n _ _ now phone c hq hg

/-- Every processed sale appends exactly one sale document carrying the
computed price and stick count. -/
theorem process_sale_sales (s : State) (item : Item) (method : Method) (qty : ℤ) (n : String) (now : ℤ) :
    (process_sale s item method qty n now).1.sales =
      s.sales ++ [(s.nextSaleId,
        { qty := sale_sticks item qty, price := sale_price item method qty,
          method := method, customer := n, timestamp := now, item_type := item })] := by
  unfold process_sale
  dsimp
  by_cases h : method = Method.credit
  · rw [if_pos h, credit_sale_customers_sales]
  · rw [if_neg h]

/-- A sale of at least one unit has a strictly positive price. -/
theorem sale_price_pos (item : Item) (method : Method) (qty : ℤ) (h : 1 ≤ qty) :
    0 < sale_price item method qty := by
  have hq : (0 : ℚ) < (qty : ℚ) := by
    have h0 : (0 : ℤ) < qty := by omega
    exact_mod_cast h0
  cases item with
  | loose =>
    simp only [sale_price]
    exact mul_pos (by norm_num) hq
  | pack =>
    simp only [sale_price]
    split
    · exact mul_pos (by norm_num) hq
    · exact mul_pos (by norm_num) hq

/-- A credit sale of at least one unit preserves positivity of the debtor
balance. -/
theorem pos_process_sale (s : State) (customer_name : String) (now : ℤ) (item : Item) (qty : ℤ)
    (h1 : 1 ≤ qty) (hp : DebtorPos s customer_name) :
    DebtorPos (process_sale s item Method.credit qty customer_name now).1 customer_name := by
  intro d hd
  rw [process_sale_debtors_credit] at hd
  unfold upsert_debtor at hd
  rw [if_pos rfl] at hd
  cases hdb : s.debtors customer_name with
  | none =>
    rw [hdb] at hd
    dsimp at hd
    obtain rfl := (Option.some.inj hd).symm
    exact sale_price_pos item Method.credit qty h1
  | some d0 =>
    rw [hdb] at hd
    dsimp at hd
    obtain rfl := (Option.some.inj hd).symm
    exact add_pos (hp d0 hdb) (sale_price_pos item Method.credit qty h1)

/-- A payment of any amount preserves positivity of the debtor balance. -/
theorem pos_record_payment (s : State) (n : String) (amount : ℚ) (now : ℤ)
    (hp : DebtorPos s n) : DebtorPos (record_payment s n amount now).1 n := by
  intro d' hd'
  cases hdb : s.debtors n with
  | none =>
    rw [record_payment_none s n amount now hdb] at hd'
    exact hp d' hd'
  | some d =>
    rw [record_payment_debtors_self s n amount now d hdb] at hd'
    by_cases h0 : max 0 (d.balance - amount) = 0
    · rw [if_pos h0] at hd'
      cases hd'
    · rw [if_neg h0] at hd'
      obtain rfl := (Option.some.inj hd').symm
      exact lt_of_le_of_ne (le_max_left _ _) (Ne.symm h0)

/-- The debtor invariant is preserved by any sequence of credit sales of at
least one unit and payments of any amount. -/
theorem applyOps_pos (customer_name : String) (now : ℤ) (ops : List Op) :
    ∀ s : State, (∀ item qty, Op.sale item qty ∈ ops → 1 ≤ qty) →
      DebtorPos s customer_name → DebtorPos (applyOps customer_name now s ops) customer_name := by
  induction ops with
  | nil => exact fun _ _ hs => hs
  | cons op ops ih =>
    intro s hqty hs
    have hstep : DebtorPos (applyOp customer_name now s op) customer_name := by
      cases op with
      | sale item qty =>
        exact pos_process_sale s customer_name now item qty
          (hqty item qty (List.mem_cons_self _ _)) hs
      | pay amount => exact pos_record_payment s customer_name amount now hs
    exact ih (applyOp customer_name now s op)
      (fun item qty h => hqty item qty (List.mem_cons_of_mem _ h)) hstep

/-- Explicit form of the four-week branch when the condition holds. -/
theorem four_week_check_hit (now lc : ℤ) (s : State) (phone : String) (data : Customer)
    (hlc : data.last_debt_check = some lc)
    (h4 : ((now - lc : ℤ) : ℚ) / 7 ≥ 4) :
    four_week_check now s phone data =
      { s with
        customers := (updateCustomer (updateCustomer s.customers phone
          (fun c0 => update_customer_tier c0 (max 0 (data.loyalty_points - 2)))) phone
          (fun c0 => { c0 with last_debt_check := some now })),
        point_history := s.point_history ++
          [{ customer_phone := phone, change := -2, reason := Reason.overdueFourWeeks, timestamp := now }] } := by
  unfold four_week_check
  rw [hlc]
  dsimp
  rw [if_pos h4]

/-- Explicit form of the ten-percent branch when the condition holds. -/
theorem ten_pct_check_hit (now : ℤ) (s : State) (phone : String) (data : Customer)
    (hb : data.debt_at_last_check > 0)
    (h10 : ((data.current_debt - data.debt_at_last_check) / data.debt_at_last_check) * 100 ≥ 10) :
    ten_pct_check now s phone data =
      { s with
        customers := (updateCustomer (updateCustomer s.customers phone
          (fun c0 => update_customer_tier c0 (max 0 (data.loyalty_points - 2)))) phone
          (fun c0 => { c0 with debt_at_last_check := data.current_debt })),
        point_history := s.point_history ++
          [{ customer_phone := phone, change := -2,
             reason := Reason.debtIncrease (((data.current_debt - data.debt_at_last_check) / data.debt_at_last_check) * 100),
             timestamp := now }] } := by
  unfold ten_pct_check
  rw [if_pos hb]
  dsimp
  rw [if_pos h10]

/-- The four-week branch leaves other phones and their counts unchanged. -/
theorem four_week_check_frame (now : ℤ) (s : State) (q : String) (data : Customer)
    (phone : String) (h : phone ≠ q) :
    getCustomer (four_week_check now s q data).customers phone = getCustomer s.customers phone ∧
    countFor phone (four_week_check now s q data).point_history = countFor phone s.point_history := by
  unfold four_week_check
  cases data.last_debt_check with
  | none => exact ⟨rfl, rfl⟩
  | some lc =>
    dsimp
    split
    · constructor
      · rw [getCustomer_update_ne _ _ _ _ h, getCustomer_update_ne _ _ _ _ h]
      · rw [countFor_append, countFor_single_ne _ _ _ _ _ (Ne.symm h)]
        omega
    · exact ⟨rfl, rfl⟩

/-- The ten-percent branch leaves other phones and their counts unchanged. -/
theorem ten_pct_check_frame (now : ℤ) (s : State) (q : String) (data : Customer)
    (phone : String) (h : phone ≠ q) :
    getCustomer (ten_pct_check now s q data).customers phone = getCustomer s.customers phone ∧
    countFor phone (ten_pct_check now s q data).point_history = countFor phone s.point_history := by
  unfold ten_pct_check
  split
  · dsimp
    split
    · constructor
      · rw [getCustomer_update_ne _ _ _ _ h, getCustomer_update_ne _ _ _ _ h]
      · rw [countFor_append, countFor_single_ne _ _ _ _ _ (Ne.symm h)]
        omega
    · exact ⟨rfl, rfl⟩
  · exact ⟨rfl, rfl⟩

/-- One sweep step for another customer leaves a phone and its count
unchanged. -/
theorem penalty_step_frame (now : ℤ) (s : State) (e : String × Customer)
    (phone : String) (h : phone ≠ e.1) :
    getCustomer (penalty_step now s e).customers phone = getCustomer s.customers phone ∧
    countFor phone (penalty_step now s e).point_history = countFor phone s.point_history := by
  unfold penalty_step
  split
  · exact ⟨rfl, rfl⟩
  · obtain ⟨hc4, hh4⟩ := four_week_check_frame now s e.1 e.2 phone h
    obtain ⟨hc10, hh10⟩ := ten_pct_check_frame now (four_week_check now s e.1 e.2) e.1 e.2 phone h
    exact ⟨hc10.trans hc4, hh10.trans hh4⟩

/-- Folding the sweep over customers with other phones leaves a phone and its
count unchanged. -/
theorem foldl_penalty_frame (now : ℤ) (phone : String) (L : List (String × Customer)) :
    (∀ e ∈ L, e.1 ≠ phone) → ∀ s : State,
      getCustomer (L.foldl (penalty_step now) s).customers phone = getCustomer s.customers phone ∧
      countFor phone (L.foldl (penalty_step now) s).point_history = countFor phone s.point_history := by
  induction L with
  | nil => exact fun _ _ => ⟨rfl, rfl⟩
  | cons e L ih =>
    intro h s
    have h1 := penalty_step_frame now s e phone (Ne.symm (h e (List.mem_cons_self _ _)))
    have h2 := ih (fun x hx => h x (List.mem_cons_of_mem _ hx)) (penalty_step now s e)
    exact ⟨h2.1.trans h1.1, h2.2.trans h1.2⟩

/-- C1: For every sequence of credit sales and payments applied to the same
debtor name (sales carrying the data-model quantity invariant of at least
one unit), starting from any store satisfying the balance invariant, the
debtor record is only ever present with a strictly positive balance — so the
record is absent exactly when the balance would be 0 — and a payment
covering the whole balance deletes the record rather than storing a zero. -/
theorem claim_C1 (customer_name : String) (now : ℤ) (s : State) (ops : List Op)
    (hqty : ∀ item qty, Op.sale item qty ∈ ops → 1 ≤ qty)
    (hs : DebtorPos s customer_name) :
    DebtorPos (applyOps customer_name now s ops) customer_name ∧
    (∀ (d : Debtor) (amount : ℚ),
      (applyOps customer_name now s ops).debtors customer_name = some d →
      d.balance ≤ amount →
      (record_payment (applyOps customer_name now s ops) customer_name amount now).1.debtors customer_name = none) := by
  refine ⟨applyOps_pos customer_name now ops s hqty hs, ?_⟩
  intro d amount hd hle
  rw [record_payment_debtors_self _ _ _ _ _ hd]
  rw [if_pos (max_eq_left (sub_nonpos.mpr hle))]

/-- C1 witness: one credit pack sale followed by a covering payment on an
empty store. -/
theorem claim_C1_witness :
    DebtorPos (applyOps "Alice" 0 emptyState [Op.sale Item.pack 1, Op.pay 40]) "Alice" ∧
    (∀ (d : Debtor) (amount : ℚ),
      (applyOps "Alice" 0 emptyState [Op.sale Item.pack 1, Op.pay 40]).debtors "Alice" = some d →
      d.balance ≤ amount →
      (record_payment (applyOps "Alice" 0 emptyState [Op.sale Item.pack 1, Op.pay 40]) "Alice" amount 0).1.debtors "Alice" = none) :=
  claim_C1 "Alice" 0 emptyState [Op.sale Item.pack 1, Op.pay 40]
    (by
      intro item qty h
      simp only [List.mem_cons, List.not_mem_nil, or_false] at h
      rcases h with h | h
      · obtain ⟨-, rfl⟩ := Op.sale.inj h
        omega
      · simp at h)
    (by
      intro d h
      simp [emptyState] at h)

/-- C2: Every sale processed by process_sale stores and returns the price
and stick count given by the pricing rule: loose sales cost 1.50 per stick
with sticks equal to the quantity; pack sales cost 40.00 per pack on credit
and 30.00 otherwise, with 20 sticks per pack. -/
theorem claim_C2 (s : State) (item : Item) (method : Method) (qty : ℤ) (n : String) (now : ℤ) :
    (process_sale s item method qty n now).1.sales =
      s.sales ++ [(s.nextSaleId,
        { qty := sale_sticks item qty, price := sale_price item method qty,
          method := method, customer := n, timestamp := now, item_type := item })] ∧
    (process_sale s item method qty n now).2.price = sale_price item method qty ∧
    sale_price Item.loose method qty = (1.5 : ℚ) * (qty : ℚ) ∧
    sale_sticks Item.loose qty = qty ∧
    (method = Method.credit → sale_price Item.pack method qty = (40 : ℚ) * (qty : ℚ)) ∧
    (method ≠ Method.credit → sale_price Item.pack method qty = (30 : ℚ) * (qty : ℚ)) ∧
    sale_sticks Item.pack qty = qty * 20 := by
  refine ⟨process_sale_sales s item method qty n now, rfl, rfl, rfl, ?_, ?_, rfl⟩
  · intro h
    simp [sale_price, h]
  · intro h
    simp [sale_price, h]

/-- C2 witness: two packs on credit cost 80.00. -/
theorem claim_C2_witness :
    (process_sale emptyState Item.pack Method.credit 2 "W" 0).2.price = 80 := by
  obtain ⟨-, hres, -, -, hpack, -, -⟩ := claim_C2 emptyState Item.pack Method.credit 2 "W" 0
  rw [hres, hpack rfl]
  norm_num

/-- C3: A credit sale increments the debtor balance by the sale price,
creating the record with trust score 50 and balance equal to the price when
absent; the matching customer has the price added to current_debt and
sticks // 20 (integer floor division) added to loyalty points, so fewer than
20 sticks award zero points. -/
theorem claim_C3 (s : State) (item : Item) (qty : ℤ) (n : String) (now : ℤ)
    (phone : String) (c : Customer)
    (hq : queryByName s.customers n = some (phone, c))
    (hg : getCustomer s.customers phone = some c) :
    (s.debtors n = none →
      (process_sale s item Method.credit qty n now).1.debtors n =
        some { balance := sale_price item Method.credit qty, trust_score := 50,
               created := now, last_purchase := now, last_payment := none }) ∧
    (∀ d0 : Debtor, s.debtors n = some d0 →
      (process_sale s item Method.credit qty n now).1.debtors n =
        some { d0 with balance := d0.balance + sale_price item Method.credit qty, last_purchase := now }) ∧
    (∃ c2 : Customer,
      getCustomer (process_sale s item Method.credit qty n now).1.customers phone = some c2 ∧
      c2.current_debt = c.current_debt + sale_price item Method.credit qty ∧
      c2.loyalty_points = c.loyalty_points + Int.fdiv (sale_sticks item qty) 20) ∧
    (∀ st : ℤ, 0 ≤ st → st < 20 → Int.fdiv st 20 = 0) := by
  refine ⟨?_, ?_, ?_, ?_⟩
  · intro hdn
    rw [process_sale_debtors_credit]
    unfold upsert_debtor
    rw [if_pos rfl, hdn]
  · intro d0 hd0
    rw [process_sale_debtors_credit]
    unfold upsert_debtor
    rw [if_pos rfl, hd0]
  · exact ⟨_, process_sale_customers_effect s item qty n now phone c hq hg,
      by simp [update_customer_tier], by simp [update_customer_tier]⟩
  · intro st h0 h20
    interval_cases st <;> decide

/-- C3 witness: one pack sold on credit to the fixture customer. -/
theorem claim_C3_witness :
    ∃ c2 : Customer,
      getCustomer (process_sale baseState Item.pack Method.credit 1 "Alice" 5).1.customers "071" = some c2 ∧
      c2.current_debt = aliceCustomer.current_debt + sale_price Item.pack Method.credit 1 ∧
      c2.loyalty_points = aliceCustomer.loyalty_points + Int.fdiv (sale_sticks Item.pack 1) 20 :=
  (claim_C3 baseState Item.pack 1 "Alice" 5 "071" aliceCustomer (by rfl) (by rfl)).2.2.1

/-- C4: A payment against an existing debtor gives the matching customer a
flat bonus of 5 loyalty points regardless of the amount, and resets the
overdue-tracking baseline: last_debt_check becomes now and
debt_at_last_check becomes the new debt. -/
theorem claim_C4 (s : State) (n : String) (amount : ℚ) (now : ℤ)
    (d : Debtor) (phone : String) (c : Customer)
    (hd : s.debtors n = some d)
    (hq : queryByName s.customers n = some (phone, c))
    (hg : getCustomer s.customers phone = some c) :
    ∃ c2 : Customer,
      getCustomer (record_payment s n amount now).1.customers phone = some c2 ∧
      c2.loyalty_points = c.loyalty_points + 5 ∧
      c2.last_debt_check = some now ∧
      c2.debt_at_last_check = max 0 (c.current_debt - amount) ∧
      c2.current_debt = max 0 (c.current_debt - amount) :=
  ⟨_, record_payment_customers_effect s n amount now d phone c hd hq hg,
    by simp [update_customer_tier], by simp [update_customer_tier],
    by simp [update_customer_tier], by simp [update_customer_tier]⟩

/-- C4 witness: the fixture debtor pays 15. -/
theorem claim_C4_witness :
    ∃ c2 : Customer,
      getCustomer (record_payment baseState "Alice" 15 9).1.customers "071" = some c2 ∧
      c2.loyalty_points = aliceCustomer.loyalty_points + 5 ∧
      c2.last_debt_check = some 9 ∧
      c2.debt_at_last_check = max 0 (aliceCustomer.current_debt - 15) ∧
      c2.current_debt = max 0 (aliceCustomer.current_debt - 15) :=
  claim_C4 baseState "Alice" 15 9 aliceDebtor "071" aliceCustomer (by rfl) (by rfl) (by rfl)

/-- C10: Recording a payment for a name with no debtor record returns the
404 not-found result with the store completely unchanged: no payment entry,
no customer update, nothing. -/
theorem claim_C10 (s : State) (n : String) (amount : ℚ) (now : ℤ)
    (hd : s.debtors n = none) :
    record_payment s n amount now = (s, PayResp.notFound) :=
  record_payment_none s n amount now hd

/-- C10 witness: paying for an unknown name on the empty store. -/
theorem claim_C10_witness :
    record_payment emptyState "Ghost" 5 0 = (emptyState, PayResp.notFound) :=
  claim_C10 emptyState "Ghost" 5 0 rfl

/-- C5: Tier classification is a pure function of points — at least 100
points gives trusted with limit 120, at least 50 gives regular with limit
100, below 50 gives new with limit 80 — the tier update overwrites tier,
credit_limit and loyalty_points from it, and it is re-run on the customer
after the point change of a credit sale and of a payment. -/
theorem claim_C5 (s : State) (item : Item) (qty : ℤ) (n : String) (now : ℤ)
    (phone : String) (c : Customer) (d : Debtor) (amount : ℚ)
    (hd : s.debtors n = some d)
    (hq : queryByName s.customers n = some (phone, c))
    (hg : getCustomer s.customers phone = some c) :
    (∀ p : ℤ,
      (100 ≤ p → (calculate_tier p).name = "trusted" ∧ (calculate_tier p).limit = 120) ∧
      (50 ≤ p → p < 100 → (calculate_tier p).name = "regular" ∧ (calculate_tier p).limit = 100) ∧
      (p < 50 → (calculate_tier p).name = "new" ∧ (calculate_tier p).limit = 80)) ∧
    (∀ (c0 : Customer) (p : ℤ),
      (update_customer_tier c0 p).tier = (calculate_tier p).name ∧
      (update_customer_tier c0 p).credit_limit = (calculate_tier p).limit ∧
      (update_customer_tier c0 p).loyalty_points = p) ∧
    (∃ c2 : Customer,
      getCustomer (process_sale s item Method.credit qty n now).1.customers phone = some c2 ∧
      c2.tier = (calculate_tier (c.loyalty_points + Int.fdiv (sale_sticks item qty) 20)).name ∧
      c2.credit_limit = (calculate_tier (c.loyalty_points + Int.fdiv (sale_sticks item qty) 20)).limit) ∧
    (∃ c3 : Customer,
      getCustomer (record_payment s n amount now).1.customers phone = some c3 ∧
      c3.tier = (calculate_tier (c.loyalty_points + 5)).name ∧
      c3.credit_limit = (calculate_tier (c.loyalty_points + 5)).limit) := by
  refine ⟨?_, ?_, ?_, ?_⟩
  · intro p
    refine ⟨fun h => ?_, fun h1 h2 => ?_, fun h => ?_⟩
    · unfold calculate_tier
      rw [if_pos h]
      exact ⟨rfl, rfl⟩
    · unfold calculate_tier
      rw [if_neg (by omega), if_pos h1]
      exact ⟨rfl, rfl⟩
    · unfold calculate_tier
      rw [if_neg (by omega), if_neg (by omega)]
      exact ⟨rfl, rfl⟩
  · exact fun c0 p => ⟨rfl, rfl, rfl⟩
  · exact ⟨_, process_sale_customers_effect s item qty n now phone c hq hg,
      by simp [update_customer_tier], by simp [update_customer_tier]⟩
  · exact ⟨_, record_payment_customers_effect s n amount now d phone c hd hq hg,
      by simp [update_customer_tier], by simp [update_customer_tier]⟩

/-- C5 witness: the fixture customer, one credit pack and a payment of 15. -/
theorem claim_C5_witness :
    (∀ p : ℤ,
      (100 ≤ p → (calculate_tier p).name = "trusted" ∧ (calculate_tier p).limit = 120) ∧
      (50 ≤ p → p < 100 → (calculate_tier p).name = "regular" ∧ (calculate_tier p).limit = 100) ∧
      (p < 50 → (calculate_tier p).name = "new" ∧ (calculate_tier p).limit = 80)) ∧
    (∀ (c0 : Customer) (p : ℤ),
      (update_customer_tier c0 p).tier = (calculate_tier p).name ∧
      (update_customer_tier c0 p).credit_limit = (calculate_tier p).limit ∧
      (update_customer_tier c0 p).loyalty_points = p) ∧
    (∃ c2 : Customer,
      getCustomer (process_sale baseState Item.pack Method.credit 1 "Alice" 5).1.customers "071" = some c2 ∧
      c2.tier = (calculate_tier (aliceCustomer.loyalty_points + Int.fdiv (sale_sticks Item.pack 1) 20)).name ∧
      c2.credit_limit = (calculate_tier (aliceCustomer.loyalty_points + Int.fdiv (sale_sticks Item.pack 1) 20)).limit) ∧
    (∃ c3 : Customer,
      getCustomer (record_payment baseState "Alice" 15 5).1.customers "071" = some c3 ∧
      c3.tier = (calculate_tier (aliceCustomer.loyalty_points + 5)).name ∧
      c3.credit_limit = (calculate_tier (aliceCustomer.loyalty_points + 5)).limit) :=
  claim_C5 baseState Item.pack 1 "Alice" 5 "071" aliceCustomer aliceDebtor 15
    (by rfl) (by rfl) (by rfl)

/-- C7: With positive cash the dashboard risk is HIGH above a credit-to-cash
ratio of 0.6, MEDIUM above 0.3, SAFE otherwise; with zero cash it is HIGH
exactly when any credit exists; in particular cash 1000 and credit 700 (a
ratio of 0.7) classifies HIGH. -/
theorem claim_C7 (cashAmount creditAmount : ℚ) :
    (0 < cashAmount →
      ((creditAmount / cashAmount > (0.6 : ℚ) → risk_level cashAmount creditAmount = "HIGH") ∧
       (creditAmount / cashAmount ≤ (0.6 : ℚ) → creditAmount / cashAmount > (0.3 : ℚ) →
         risk_level cashAmount creditAmount = "MEDIUM") ∧
       (creditAmount / cashAmount ≤ (0.3 : ℚ) → risk_level cashAmount creditAmount = "SAFE"))) ∧
    (cashAmount = 0 →
      ((0 < creditAmount → risk_level cashAmount creditAmount = "HIGH") ∧
       (creditAmount ≤ 0 → risk_level cashAmount creditAmount = "SAFE"))) ∧
    risk_level 1000 700 = "HIGH" := by
  refine ⟨?_, ?_, ?_⟩
  · intro hc
    refine ⟨fun h => ?_, fun h1 h2 => ?_, fun h => ?_⟩
    · unfold risk_level
      rw [if_pos hc, if_pos h]
    · unfold risk_level
      rw [if_pos hc, if_neg (not_lt.mpr h1), if_pos h2]
    · unfold risk_level
      rw [if_pos hc, if_neg (not_lt.mpr (h.trans (by norm_num))), if_neg (not_lt.mpr h)]
  · intro hc
    refine ⟨fun h => ?_, fun h => ?_⟩
    · unfold risk_level
      rw [if_neg (by intro hlt; rw [hc] at hlt; exact lt_irrefl 0 hlt), if_pos h]
    · unfold risk_level
      rw [if_neg (by intro hlt; rw [hc] at hlt; exact lt_irrefl 0 hlt), if_neg (not_lt.mpr h)]
  · norm_num [risk_level]

/-- C7 witness: the concrete 1000 and 700 scenario. -/
theorem claim_C7_witness : risk_level 1000 700 = "HIGH" :=
  (claim_C7 1000 700).2.2

/-- C8: Deleting a credit-sale transaction reduces the debtor balance by its
price floored at 0, deleting the debtor record when the result is exactly 0,
while customer records — including the loyalty points already awarded for
that sale — and the point history are left completely untouched. -/
theorem claim_C8 (s : State) (tid sid : Nat) (trans : SaleRec) (d : Debtor)
    (hfind : s.sales.find? (fun e => decide (e.1 = tid)) = some (sid, trans))
    (hm : trans.method = Method.credit)
    (hd : s.debtors trans.customer = some d) :
    ((max 0 (d.balance - trans.price) = 0 →
       (delete_transaction s tid).1.debtors trans.customer = none) ∧
     (max 0 (d.balance - trans.price) ≠ 0 →
       (delete_transaction s tid).1.debtors trans.customer =
         some { d with balance := max 0 (d.balance - trans.price) })) ∧
    (delete_transaction s tid).1.customers = s.customers ∧
    (delete_transaction s tid).1.point_history = s.point_history := by
  unfold delete_transaction
  rw [hfind]
  dsimp
  rw [if_pos hm, hd]
  dsimp
  by_cases h0 : max 0 (d.balance - trans.price) = 0
  · rw [if_pos h0]
    refine ⟨⟨fun _ => ?_, fun hne => absurd h0 hne⟩, rfl, rfl⟩
    dsimp
    rw [if_pos rfl]
  · rw [if_neg h0]
    refine ⟨⟨fun heq => absurd heq h0, fun _ => ?_⟩, rfl, rfl⟩
    dsimp
    rw [if_pos rfl]

/-- C8 witness: deleting the fixture credit sale whose price covers the
whole balance. -/
theorem claim_C8_witness :
    ((max 0 (aliceDebtor.balance - (40 : ℚ)) = 0 →
       (delete_transaction saleState 0).1.debtors "Alice" = none) ∧
     (max 0 (aliceDebtor.balance - (40 : ℚ)) ≠ 0 →
       (delete_transaction saleState 0).1.debtors "Alice" =
         some { aliceDebtor with balance := max 0 (aliceDebtor.balance - (40 : ℚ)) })) ∧
    (delete_transaction saleState 0).1.customers = saleState.customers ∧
    (delete_transaction saleState 0).1.point_history = saleState.point_history :=
  claim_C8 saleState 0 0
    { qty := 20, price := 40, method := Method.credit, customer := "Alice", timestamp := 0, item_type := Item.pack }
    aliceDebtor (by rfl) (by rfl) (by rfl)

/-- C6 amended: when both overdue conditions hold for a customer in a sweep,
both checks fire — each appends a point-history entry of change -2 — but
both compute the new point total from the same pre-sweep snapshot, so the
stored loyalty points end at max 0 (points - 2): the net stored deduction is
2, not 4. The baseline is still updated and last_debt_check reset, and the
ten-percent check is skipped entirely when the stored baseline is 0. -/
theorem claim_C6_amended (s : State) (now lc : ℤ) (phone : String) (c : Customer)
    (L1 L2 : List (String × Customer))
    (hsplit : s.customers.filter (fun pc => pc.2.approved) = L1 ++ (phone, c) :: L2)
    (h1 : ∀ e ∈ L1, e.1 ≠ phone) (h2 : ∀ e ∈ L2, e.1 ≠ phone)
    (hg : getCustomer s.customers phone = some c)
    (hdebt : c.current_debt ≠ 0)
    (hlc : c.last_debt_check = some lc)
    (h4 : ((now - lc : ℤ) : ℚ) / 7 ≥ 4)
    (hb : c.debt_at_last_check > 0)
    (h10 : ((c.current_debt - c.debt_at_last_check) / c.debt_at_last_check) * 100 ≥ 10) :
    (∃ c2 : Customer,
      getCustomer (check_overdue_penalties s now).customers phone = some c2 ∧
      c2.loyalty_points = max 0 (c.loyalty_points - 2) ∧
      c2.last_debt_check = some now ∧
      c2.debt_at_last_check = c.current_debt ∧
      countFor phone (check_overdue_penalties s now).point_history =
        countFor phone s.point_history + 2) ∧
    (∀ (s0 : State) (q : String) (dat : Customer),
      dat.debt_at_last_check = 0 → ten_pct_check now s0 q dat = s0) := by
  refine ⟨?_, ?_⟩
  case refine_2 =>
    intro s0 q dat h0
    unfold ten_pct_check
    rw [if_neg (by rw [h0]; exact lt_irrefl 0)]
  unfold check_overdue_penalties
  rw [hsplit, List.foldl_append, List.foldl_cons]
  obtain ⟨hA1, hA2⟩ := foldl_penalty_frame now phone L1 h1 s
  set sA := L1.foldl (penalty_step now) s with hsA
  have hgA : getCustomer sA.customers phone = some c := hA1.trans hg
  have hstep1 : penalty_step now sA (phone, c) =
      ten_pct_check now (four_week_check now sA phone c) phone c := by
    unfold penalty_step
    rw [if_neg hdebt]
  have hmid : getCustomer (ten_pct_check now (four_week_check now sA phone c) phone c).customers phone =
      some { update_customer_tier
              { update_customer_tier c (max 0 (c.loyalty_points - 2)) with last_debt_check := some now }
              (max 0 (c.loyalty_points - 2)) with debt_at_last_check := c.current_debt } := by
    rw [four_week_check_hit now lc sA phone c hlc h4, ten_pct_check_hit now _ phone c hb h10]
    dsimp
    rw [getCustomer_update_self, getCustomer_update_self, getCustomer_update_self,
      getCustomer_update_self, hgA]
    rfl
  have hcount : countFor phone (ten_pct_check now (four_week_check now sA phone c) phone c).point_history =
      countFor phone s.point_history + 2 := by
    rw [four_week_check_hit now lc sA phone c hlc h4, ten_pct_check_hit now _ phone c hb h10]
    dsimp
    rw [countFor_append, countFor_append, countFor_single_self, countFor_single_self, hA2]
  rw [hstep1]
  obtain ⟨hB1, hB2⟩ := foldl_penalty_frame now phone L2 h2
    (ten_pct_check now (four_week_check now sA phone c) phone c)
  refine ⟨_, hB1.trans hmid, ?_, ?_, ?_, hB2.trans hcount⟩
  · simp [update_customer_tier]
  · simp [update_customer_tier]
  · rfl

/-- C6 counterexample: the fixture customer has 10 points and satisfies both
overdue conditions at day 28; the sweep logs two -2 entries but leaves the
stored points at 8, not the 6 that two stored deductions of 2 would give. -/
theorem claim_C6_counterexample :
    bobCustomer.loyalty_points = 10 ∧
    bobCustomer.last_debt_check = some 0 ∧
    ((28 - 0 : ℤ) : ℚ) / 7 ≥ 4 ∧
    bobCustomer.debt_at_last_check > 0 ∧
    ((bobCustomer.current_debt - bobCustomer.debt_at_last_check) / bobCustomer.debt_at_last_check) * 100 ≥ 10 ∧
    countFor "072" (check_overdue_penalties sweepState 28).point_history = 2 ∧
    ((getCustomer (check_overdue_penalties sweepState 28).customers "072").map (fun c => c.loyalty_points)) = some 8 ∧
    ((getCustomer (check_overdue_penalties sweepState 28).customers "072").map (fun c => c.loyalty_points)) ≠ some 6 := by
  have h8 : ((getCustomer (check_overdue_penalties sweepState 28).customers "072").map (fun c => c.loyalty_points)) = some 8 := by
    norm_num [check_overdue_penalties, sweepState, bobCustomer, penalty_step, four_week_check, ten_pct_check,
      updateCustomer, getCustomer, update_customer_tier, calculate_tier, TIER_NEW, TIER_REGULAR, TIER_TRUSTED,
      List.filter, List.foldl, List.find?]
  refine ⟨rfl, rfl, by norm_num, by norm_num [bobCustomer], by norm_num [bobCustomer], ?_, h8, ?_⟩
  · norm_num [check_overdue_penalties, sweepState, bobCustomer, penalty_step, four_week_check, ten_pct_check,
      updateCustomer, countFor, update_customer_tier, calculate_tier, TIER_NEW, TIER_REGULAR, TIER_TRUSTED,
      List.filter, List.foldl, List.find?]
  · rw [h8]
    simp

/-- C6 witness: the amended sweep behavior on the fixture store. -/
theorem claim_C6_witness :
    (∃ c2 : Customer,
      getCustomer (check_overdue_penalties sweepState 28).customers "072" = some c2 ∧
      c2.loyalty_points = max 0 (bobCustomer.loyalty_points - 2) ∧
      c2.last_debt_check = some 28 ∧
      c2.debt_at_last_check = bobCustomer.current_debt ∧
      countFor "072" (check_overdue_penalties sweepState 28).point_history =
        countFor "072" sweepState.point_history + 2) ∧
    (∀ (s0 : State) (q : String) (dat : Customer),
      dat.debt_at_last_check = 0 → ten_pct_check 28 s0 q dat = s0) :=
  claim_C6_amended sweepState 28 0 "072" bobCustomer [] []
    (by rfl)
    (by intro e he; exact absurd he (List.not_mem_nil e))
    (by intro e he; exact absurd he (List.not_mem_nil e))
    (by rfl)
    (by norm_num [bobCustomer])
    (by rfl)
    (by norm_num)
    (by norm_num [bobCustomer])
    (by norm_num [bobCustomer])

/-- C9 amended: under the forecast guards, the daily average is the ALL-TIME
stick total divided by the days elapsed since month start (floored at one
day) — not the consumption since month start; days until stockout is the
truncation of remaining sticks divided by max 1 average; and the weekly
bundle estimate max 1 (trunc (average * 7 / 200)) is always at least 1. -/
theorem claim_C9_amended (sales : List SaleRec) (stock_sticks today month_start : ℤ)
    (hds : 0 < daily_sales_total sales today)
    (hrem : 0 < stock_sticks - total_sticks_sold sales) :
    (cash_flow_forecast sales stock_sticks today month_start).days_until_out =
      pyInt (((stock_sticks - total_sticks_sold sales : ℤ) : ℚ) /
        max 1 (avg_sticks_per_day sales today month_start)) ∧
    (cash_flow_forecast sales stock_sticks today month_start).bundles_needed =
      max 1 (pyInt ((avg_sticks_per_day sales today month_start * 7) / (200 : ℚ))) ∧
    avg_sticks_per_day sales today month_start =
      (total_sticks_sold sales : ℚ) / ((max 1 (today - month_start) : ℤ) : ℚ) ∧
    (∀ (ss : List SaleRec) (st td ms : ℤ), 1 ≤ (cash_flow_forecast ss st td ms).bundles_needed) := by
  refine ⟨?_, ?_, rfl, ?_⟩
  · unfold cash_flow_forecast
    rw [if_pos ⟨hds, hrem⟩]
  · unfold cash_flow_forecast
    rw [if_pos ⟨hds, hrem⟩]
    dsimp
    norm_num [STICKS_PER_BUNDLE]
  · intro ss st td ms
    unfold cash_flow_forecast
    dsimp only
    split
    · exact le_max_left _ _
    · exact le_refl 1

/-- C9 counterexample: with 198 sticks sold before month start and 2 after,
stock 400, month start day 10 and today day 12, the source forecast gives 2
days until stockout while the since-month-start average of the spec gives
200 days. -/
theorem claim_C9_counterexample :
    0 < daily_sales_total forecastSales 12 ∧
    0 < 400 - total_sticks_sold forecastSales ∧
    (cash_flow_forecast forecastSales 400 12 10).days_until_out = 2 ∧
    spec_days_until_out forecastSales 400 12 10 = 200 ∧
    (2 : ℤ) ≠ 200 := by
  refine ⟨?_, ?_, ?_, ?_, by decide⟩
  · norm_num [daily_sales_total, forecastSales, saleOld, saleToday, List.filter]
  · norm_num [total_sticks_sold, forecastSales, saleOld, saleToday]
  · norm_num [cash_flow_forecast, forecastSales, saleOld, saleToday, daily_sales_total, total_sticks_sold,
      avg_sticks_per_day, pyInt, List.filter]
  · norm_num [spec_days_until_out, spec_avg_sticks_per_day, forecastSales, saleOld, saleToday, total_sticks_sold,
      pyInt, List.filter]

/-- C9 witness: the amended forecast equations on the fixture sales. -/
theorem claim_C9_witness :
    (cash_flow_forecast forecastSales 400 12 10).days_until_out =
      pyInt (((400 - total_sticks_sold forecastSales : ℤ) : ℚ) /
        max 1 (avg_sticks_per_day forecastSales 12 10)) ∧
    (cash_flow_forecast forecastSales 400 12 10).bundles_needed =
      max 1 (pyInt ((avg_sticks_per_day forecastSales 12 10 * 7) / (200 : ℚ))) ∧
    avg_sticks_per_day forecastSales 12 10 =
      (total_sticks_sold forecastSales : ℚ) / ((max 1 ((12 : ℤ) - 10) : ℤ) : ℚ) ∧
    (∀ (ss : List SaleRec) (st td ms : ℤ), 1 ≤ (cash_flow_forecast ss st td ms).bundles_needed) :=
  claim_C9_amended forecastSales 400 12 10
    (by norm_num [daily_sales_total, forecastSales, saleOld, saleToday, List.filter])
    (by norm_num [total_sticks_sold, forecastSales, saleOld, saleToday])
